import Mathlib

/-!
# Verification of the eBay search proxy backend

Shallow embedding of the serverless eBay search proxy (a single endpoint,
present in the repository in three variants):

* variant A (part_000, first copy): CORS allow-list, in-memory rate limiter,
  body-type validation, value sanitization, 10 s timeout, simplified
  `cleanPriceField`;
* variant B (part_000, second copy): open CORS, no rate limiter, verbatim
  value forwarding, comprehensive `cleanPriceField`;
* variant C (api/ebay-search.js): open CORS, no rate limiter, verbatim value
  forwarding, inline price normalization.

JavaScript runtime values are modelled by the inductive type `JSVal`; fallible
JS operations (property access on `null`/`undefined`, `.toFixed` on
non-numbers) return `Except JSErr`, a thrown exception being `Except.error`.
JS numbers are modelled as rationals (the concrete values in all claims are
exactly representable, and no claim depends on binary floating-point
rounding).  Modelling notes are attached to the individual definitions.
-/

/-- A JavaScript exception: constructor name and message.  Messages are
abbreviations of the V8 texts (no claim inspects them beyond equality). -/
structure JSErr where
  name : String
  message : String
deriving Repr, DecidableEq

/-- JavaScript values as delivered by JSON parsing: `undefined`, `null`,
booleans, numbers (as rationals), strings, objects (ordered field lists, as
JS objects preserve insertion order) and arrays. -/
inductive JSVal where
  | vundefined : JSVal
  | vnull : JSVal
  | vbool : Bool → JSVal
  | vnum : ℚ → JSVal
  | vstr : String → JSVal
  | vobj : List (String × JSVal) → JSVal
  | varr : List JSVal → JSVal

/-- `typeof v` (note `typeof null === "object"` and arrays are `"object"`). -/
def jsTypeof : JSVal → String
  | .vundefined => "undefined"
  | .vnull => "object"
  | .vbool _ => "boolean"
  | .vnum _ => "number"
  | .vstr _ => "string"
  | .vobj _ => "object"
  | .varr _ => "object"

/-- JS truthiness.  `NaN` (falsy in JS) does not exist in the rational
model; no claim involves it. -/
def jsTruthy : JSVal → Bool
  | .vundefined => false
  | .vnull => false
  | .vbool b => b
  | .vnum q => q != 0
  | .vstr s => s != ""
  | .vobj _ => true
  | .varr _ => true

/-- Is the value a number? -/
def jsIsNum : JSVal → Bool
  | .vnum _ => true
  | _ => false

/-- First binding of `k` in an object field list (JS objects cannot hold
duplicate keys; the operations below are nevertheless defined for any list). -/
def jsLookup : List (String × JSVal) → String → Option JSVal
  | [], _ => none
  | (k2, v) :: rest, k => if k2 == k then some v else jsLookup rest k

/-- Property read on an object field list: `undefined` when absent. -/
def jsLookupD (fs : List (String × JSVal)) (k : String) : JSVal :=
  (jsLookup fs k).getD .vundefined

/-- `obj[k] = v`: overwrite the first binding of `k`, or append a new one
(matching JS insertion-order semantics). -/
def jsSet : List (String × JSVal) → String → JSVal → List (String × JSVal)
  | [], k, v => [(k, v)]
  | (k2, w) :: rest, k, v =>
      if k2 == k then (k2, v) :: rest else (k2, w) :: jsSet rest k v

/-- `delete obj[k]` (structurally recursive filter on the key). -/
def jsDelete : List (String × JSVal) → String → List (String × JSVal)
  | [], _ => []
  | (k2, w) :: rest, k =>
      if k2 == k then jsDelete rest k else (k2, w) :: jsDelete rest k

/-- Property access `v[k]` (`v.k`): throws a TypeError on `null` and
`undefined`; named properties of primitives and arrays read as `undefined`
(no claim reads `length` or index properties through this function). -/
def jsMember (v : JSVal) (k : String) : Except JSErr JSVal :=
  match v with
  | .vnull => .error ⟨"TypeError", "Cannot read properties of null"⟩
  | .vundefined => .error ⟨"TypeError", "Cannot read properties of undefined"⟩
  | .vobj fs => .ok (jsLookupD fs k)
  | _ => .ok .vundefined

/-- The value of a JS expression statically known to be a string (used only
under a `typeof === "string"` guard in the source). -/
def jsAsString (v : JSVal) : Except JSErr String :=
  match v with
  | .vstr s => .ok s
  | _ => .error ⟨"TypeError", "not a string"⟩

/-- `s.trim()`: strip leading and trailing whitespace (JS strips the `\s`
class; as with `keepChar` below this is modelled by `Char.isWhitespace`,
which covers the ASCII whitespace the claims involve). -/
def jsTrim (s : String) : String :=
  String.mk
    (((s.toList.dropWhile Char.isWhitespace).reverse.dropWhile
      Char.isWhitespace).reverse)

/-- `v.trim()` on a value guarded to be a string. -/
def jsTrimCall (v : JSVal) : Except JSErr String :=
  match v with
  | .vstr s => .ok (jsTrim s)
  | _ => .error ⟨"TypeError", "trim is not a function"⟩

/-- Left-pad a remainder below 100 to two digits. -/
def pad2 (k : Nat) : String :=
  if k < 10 then "0" ++ toString k else toString k

/-- `x.toFixed(2)` for a rational `x`: the ECMAScript algorithm takes the
sign apart and picks the integer `n` nearest to `100·|x|`, ties toward the
larger `n`.  For `|x| = a/b` that `n` is `⌊100·a/b + 1/2⌋ = (200a + b) / (2b)`
in integer division, computed here directly on the numerator and
denominator. -/
def toFixed2 (q : ℚ) : String :=
  let sign := if q.num < 0 then "-" else ""
  let n := (200 * q.num.natAbs + q.den) / (2 * q.den)
  sign ++ toString (n / 100) ++ "." ++ pad2 (n % 100)

/-- `v.toFixed(2)`: throws unless `v` is a number. -/
def jsToFixed2V (v : JSVal) : Except JSErr String :=
  match v with
  | .vnum q => .ok (toFixed2 q)
  | _ => .error ⟨"TypeError", "toFixed is not a function"⟩

/-- String coercion `String(v)` / template interpolation.  Faithful for
primitives; objects give the JS default `[object Object]`; array coercion
(which JS performs recursively) is approximated one level deep — no claim
depends on coercing arrays or nested objects. -/
def jsToStringShallow : JSVal → String
  | .vundefined => "undefined"
  | .vnull => "null"
  | .vbool b => if b then "true" else "false"
  | .vnum q => if q.den == 1 then toString q.num else toString q
  | .vstr s => s
  | .vobj _ => "[object Object]"
  | .varr _ => ""

/-- `String(v)` (see `jsToStringShallow` for the approximation notes). -/
def jsToString : JSVal → String
  | .varr xs => String.intercalate "," (xs.map jsToStringShallow)
  | v => jsToStringShallow v

/-- `Object.keys(v)` / spread `\x7b...v\x7d` as a field list: objects give
their fields, arrays their indexed elements, primitives nothing. -/
def jsFieldsOf : JSVal → List (String × JSVal)
  | .vobj fs => fs
  | .varr xs => xs.enum.map (fun p => (toString p.1, p.2))
  | _ => []

/-! ## `cleanPriceField`, simplified variant (part_000 lines 12–31)

```js
function cleanPriceField(priceData) {
  if (typeof priceData === 'string' && priceData.trim()) {
    return priceData.trim();
  }
  if (priceData && typeof priceData === 'object') {
    if (priceData.raw && typeof priceData.raw === 'string') {
      return priceData.raw;
    }
    if (typeof priceData.extracted_value === 'number') {
      return `$...toFixed(2)`;
    }
  }
  return 'Price not available';
}
```
-/

/-- The object branch of the simplified `cleanPriceField`. -/
def objBranchSimple (priceData : JSVal) : Except JSErr String :=
  match jsMember priceData "raw" with
  | .error e => .error e
  | .ok raw =>
    if jsTruthy raw && jsTypeof raw == "string" then jsAsString raw
    else
      match jsMember priceData "extracted_value" with
      | .error e => .error e
      | .ok ev =>
        if jsTypeof ev == "number" then
          match jsToFixed2V ev with
          | .error e => .error e
          | .ok s => .ok ("$" ++ s)
        else .ok ("Price not available")

/-- Continuation of the simplified `cleanPriceField` after the string test
failed or fell through: the object test, then the fallback. -/
def restSimple (priceData : JSVal) : Except JSErr String :=
  if jsTruthy priceData && jsTypeof priceData == "object" then
    objBranchSimple priceData
  else .ok ("Price not available")

/-- Simplified `cleanPriceField` (variant A). -/
def cleanPriceFieldSimple (priceData : JSVal) : Except JSErr String :=
  if jsTypeof priceData == "string" then
    match jsTrimCall priceData with
    | .error e => .error e
    | .ok t => if t != "" then .ok t else restSimple priceData
  else restSimple priceData

/-! ## `cleanPriceField`, comprehensive variant (part_000 lines 244–276)

The `attempts` array is built eagerly, so a truthy non-number in any of the
five numeric candidate fields throws while the array is being constructed,
before the selection loop runs. -/

/-- One eager entry `priceData.k ? \x7b$ + priceData.k.toFixed(2)\x7d : null`
of the `attempts` array. -/
def condDollar (priceData : JSVal) (k : String) : Except JSErr JSVal :=
  match jsMember priceData k with
  | .error e => .error e
  | .ok v =>
    if jsTruthy v then
      match jsToFixed2V v with
      | .error e => .error e
      | .ok s => .ok (.vstr ("$" ++ s))
    else .ok .vnull

/-- The selection loop: first attempt that is a truthy string with non-empty
trim. -/
def firstValidAttempt : List JSVal → Option String
  | [] => none
  | a :: rest =>
    match a with
    | .vstr s => if s != "" && jsTrim s != "" then some s else firstValidAttempt rest
    | _ => firstValidAttempt rest

/-- Comprehensive `cleanPriceField` (variants B and the commented-out SDK
variant). -/
def cleanPriceFieldComprehensive (priceData : JSVal) : Except JSErr String :=
  if jsTypeof priceData == "string" then jsAsString priceData
  else if !(jsTruthy priceData) || jsTypeof priceData != "object" then
    .ok ("Price not available")
  else
    match jsMember priceData "raw" with
    | .error e => .error e
    | .ok a1 =>
      match jsMember priceData "formatted" with
      | .error e => .error e
      | .ok a2 =>
        match condDollar priceData "extracted_value" with
        | .error e => .error e
        | .ok a3 =>
          match condDollar priceData "extracted" with
          | .error e => .error e
          | .ok a4 =>
            match condDollar priceData "value" with
            | .error e => .error e
            | .ok a5 =>
              match condDollar priceData "amount" with
              | .error e => .error e
              | .ok a6 =>
                match condDollar priceData "price" with
                | .error e => .error e
                | .ok a7 =>
                  .ok ((firstValidAttempt [a1, a2, a3, a4, a5, a6, a7]).getD
                    ("Price not available"))

/-! ## Rate limiter (part_000 lines 4–64)

`rateLimitMap` is modelled as an association list of IP/entry pairs; `now` is
the value of `Date.now()` in milliseconds.  The single observational
difference from the JS reference semantics (in-place mutation of a stored
entry on window reset) is noted at `checkRateLimit`. -/

/-- One `rateLimitMap` entry. -/
structure RLEntry where
  requests : Nat
  resetTime : Nat
deriving Repr, DecidableEq

/-- The in-memory per-IP map. -/
abbrev RLState := List (String × RLEntry)

def RATE_LIMIT_WINDOW_MS : Nat := 60 * 1000

def RATE_LIMIT_MAX_REQUESTS : Nat := 30

/-- `rateLimitMap.get(ip)`. -/
def rlGet : RLState → String → Option RLEntry
  | [], _ => none
  | (ip2, e) :: rest, ip => if ip2 == ip then some e else rlGet rest ip

/-- `rateLimitMap.set(ip, e)` (JS `Map.set` keeps the position of an existing
key and appends a new one). -/
def rlSet : RLState → String → RLEntry → RLState
  | [], ip, e => [(ip, e)]
  | (ip2, e2) :: rest, ip, e =>
      if ip2 == ip then (ip2, e) :: rest else (ip2, e2) :: rlSet rest ip e

/-- `checkRateLimit(clientIP)` against an explicit clock and map state;
returns the boolean result and the new map.

On the rate-limited path the JS code mutates nothing: the in-place window
reset and the limit rejection are mutually exclusive (a reset zeroes the
counter, which is below the maximum), so returning the map unchanged there is
observationally equal to the reference semantics. -/
def checkRateLimit (now : Nat) (clientIP : String) (m : RLState) : Bool × RLState :=
  let clientData := (rlGet m clientIP).getD ⟨0, now + RATE_LIMIT_WINDOW_MS⟩
  let clientData :=
    if clientData.resetTime < now then ⟨0, now + RATE_LIMIT_WINDOW_MS⟩
    else clientData
  if RATE_LIMIT_MAX_REQUESTS ≤ clientData.requests then
    (false, m)
  else
    let m2 := rlSet m clientIP ⟨clientData.requests + 1, clientData.resetTime⟩
    let m3 :=
      if 1000 < m2.length then
        m2.filter (fun p => !(p.2.resetTime < now - RATE_LIMIT_WINDOW_MS))
      else m2
    (true, m3)

/-- `n` successive calls of `checkRateLimit` for one IP, call `i` (0-based)
at time `t i`, starting from the empty map: the list of results and the
final map. -/
def runCalls (ip : String) (t : Nat → Nat) : Nat → List Bool × RLState
  | 0 => ([], [])
  | n + 1 =>
    let p := runCalls ip t n
    let c := checkRateLimit (t n) ip p.2
    (p.1 ++ [c.1], c.2)

/-- An arbitrary interleaved call sequence `(now, ip)` applied from a given
map state. -/
def runSeqFrom (m : RLState) : List (Nat × String) → RLState
  | [] => m
  | c :: cs => runSeqFrom (checkRateLimit c.1 c.2 m).2 cs

/-- An arbitrary call sequence applied from the empty map. -/
def runSeq (cs : List (Nat × String)) : RLState :=
  runSeqFrom [] cs

/-! ## Upstream query builders (part_000 lines 159–176; ebay-search.js 42–54)

The validated request body is forwarded as URL query parameters after the
three fixed pairs.  The query is modelled as the ordered list of appended
`(key, value)` string pairs. -/

/-- The three fixed parameters appended first. -/
def fixedParams (apiKey : String) : List (String × String) :=
  [("engine", "ebay"), ("api_key", apiKey), ("ebay_domain", "ebay.com")]

/-- The character class kept by the sanitizer: the complement of
`[^\w\s.,()-]` (JS `\w` is ASCII alphanumeric plus underscore; `\s` is
modelled by `Char.isWhitespace`, which covers the ASCII whitespace the claims
involve). -/
def keepChar (c : Char) : Bool :=
  c.isAlphanum || c == '_' || c.isWhitespace ||
    c == '.' || c == ',' || c == '(' || c == ')' || c == '-'

/-- `String(value).replace(/[^\w\s.,()-]/g, "")`. -/
def sanitizeValue (s : String) : String :=
  String.mk (s.toList.filter keepChar)

/-- Is the value appended at all (`value !== null && value !== undefined &&
value !== ''`)?  The comparisons are JS strict equality against primitives,
which structural comparison models exactly. -/
def forwardedVal : JSVal → Bool
  | .vnull => false
  | .vundefined => false
  | .vstr s => s != ""
  | _ => true

/-- The `Object.keys(searchParams).forEach` loop of the verbatim variants
(B and C): append every forwarded pair, value coerced by `String(...)`. -/
def appendVerbatim : List (String × JSVal) → List (String × String)
  | [] => []
  | (k, v) :: rest =>
    if forwardedVal v then (k, jsToString v) :: appendVerbatim rest
    else appendVerbatim rest

/-- The loop of the sanitizing variant (A): strip each coerced value and
append the pair only when the stripped value is non-empty. -/
def appendSanitized : List (String × JSVal) → List (String × String)
  | [] => []
  | (k, v) :: rest =>
    if forwardedVal v then
      let sv := sanitizeValue (jsToString v)
      if sv != "" then (k, sv) :: appendSanitized rest
      else appendSanitized rest
    else appendSanitized rest

/-- Full query of the verbatim variants. -/
def buildParamsVerbatim (apiKey : String) (fs : List (String × JSVal)) :
    List (String × String) :=
  fixedParams apiKey ++ appendVerbatim fs

/-- Full query of the sanitizing variant. -/
def buildParamsSanitizing (apiKey : String) (fs : List (String × JSVal)) :
    List (String × String) :=
  fixedParams apiKey ++ appendSanitized fs

/-! ## Response sanitizers -/

/-- `Array.prototype.map` with a throwing callback: left to right, the first
exception aborts the whole map. -/
def mapExceptList (f : JSVal → Except JSErr JSVal) :
    List JSVal → Except JSErr (List JSVal)
  | [] => .ok []
  | x :: xs =>
    match f x with
    | .error e => .error e
    | .ok y =>
      match mapExceptList f xs with
      | .error e => .error e
      | .ok ys => .ok (y :: ys)

/-- Per-product cleaning of variant A (part_000 lines 209–220): shallow copy,
`delete cleanProduct.shipping`, then
`cleanProduct.price = cleanPriceField(cleanProduct.price)`. -/
def cleanProductA (product : JSVal) : Except JSErr JSVal :=
  let fs := jsDelete (jsFieldsOf product) "shipping"
  match cleanPriceFieldSimple (jsLookupD fs "price") with
  | .error e => .error e
  | .ok s => .ok (.vobj (jsSet fs "price" (.vstr s)))

/-- Per-product cleaning of variant B (part_000 lines 355–364): same shape
with the comprehensive `cleanPriceField`. -/
def cleanProductB (product : JSVal) : Except JSErr JSVal :=
  let fs := jsDelete (jsFieldsOf product) "shipping"
  match cleanPriceFieldComprehensive (jsLookupD fs "price") with
  | .error e => .error e
  | .ok s => .ok (.vobj (jsSet fs "price" (.vstr s)))

/-- Per-product cleaning of variant C (ebay-search.js lines 81–96): shallow
copy, delete `shipping`, and normalize `price` inline only when it is a
truthy object, preferring `raw` (assigned verbatim, whatever its type) and
falling back to `extracted.toFixed(2)` without a currency prefix. -/
def cleanProductC (product : JSVal) : Except JSErr JSVal :=
  let fs := jsDelete (jsFieldsOf product) "shipping"
  let price := jsLookupD fs "price"
  if jsTruthy price && jsTypeof price == "object" then
    match jsMember price "raw" with
    | .error e => .error e
    | .ok raw =>
      if jsTruthy raw then .ok (.vobj (jsSet fs "price" raw))
      else
        match jsMember price "extracted" with
        | .error e => .error e
        | .ok ext =>
          if jsTruthy ext then
            match jsToFixed2V ext with
            | .error e => .error e
            | .ok s => .ok (.vobj (jsSet fs "price" (.vstr s)))
          else .ok (.vobj fs)
  else .ok (.vobj fs)

/-! ## The HTTP handlers

Model assumptions common to all three variants: CORS header writes are not
modelled (no claim concerns them); the upstream `fetch` is assumed to resolve
with a 2xx status whose JSON body is the parameter `upstream` (claims about
timeouts or network failures are out of scope, and every claim below either
never reaches the fetch or is independent of its outcome).  The boolean in
each result records whether the fetch was reached. -/

/-- An HTTP response: status and JSON body. -/
structure HResp where
  status : Nat
  body : JSVal

/-- `res.json(\x7berror: msg\x7d)`. -/
def errObj (msg : String) : JSVal :=
  .vobj [("error", .vstr msg)]

/-- Set a top-level field of the upstream JSON
(`data.organic_results = ...`; only ever reached when `data` is an object). -/
def jsSetTop (v : JSVal) (k : String) (w : JSVal) : JSVal :=
  match v with
  | .vobj fs => .vobj (jsSet fs k w)
  | other => other

/-- The post-fetch region shared in shape by the three variants:
check `data.error`, then sanitize `organic_results` and reply 200.
`errPrefix` is the upstream-error message prefix, `requireArray` is variant
A's additional `Array.isArray` guard, `cleanP` the per-product cleaner. -/
def afterFetch (errPrefix : String) (requireArray : Bool)
    (cleanP : JSVal → Except JSErr JSVal) (upstream : JSVal) :
    Except JSErr HResp :=
  match jsMember upstream "error" with
  | .error e => .error e
  | .ok errv =>
    if jsTruthy errv then .ok ⟨400, errObj (errPrefix ++ jsToString errv)⟩
    else
      match jsMember upstream "organic_results" with
      | .error e => .error e
      | .ok org =>
        if jsTruthy org then
          match org with
          | .varr xs =>
            match mapExceptList cleanP xs with
            | .error e => .error e
            | .ok ys => .ok ⟨200, jsSetTop upstream "organic_results" (.varr ys)⟩
          | _ =>
            if requireArray then .ok ⟨200, upstream⟩
            else .error ⟨"TypeError", "map is not a function"⟩
        else .ok ⟨200, upstream⟩

/-- The top-level catch of variants B and C. -/
def catchBC (e : JSErr) : HResp :=
  ⟨500, errObj ("Failed to search eBay products: " ++ e.message)⟩

/-- The top-level catch of variant A, which maps an abort to 408 first. -/
def catchA (e : JSErr) : HResp :=
  if e.name == "AbortError" then
    ⟨408, errObj ("Search request timed out. Please try again.")⟩
  else catchBC e

/-- Inbound request for the variants without the rate limiter. -/
structure Req where
  method : String
  body : JSVal

/-- Inbound request for variant A; `clientIP` models `getClientIP(req)`. -/
structure ReqA where
  method : String
  clientIP : String
  body : JSVal

/-- Result of variants B and C. -/
structure OutBC where
  resp : HResp
  upstreamCalled : Bool

/-- Result of variant A, including the rate-limiter map after the call. -/
structure OutA where
  resp : HResp
  upstreamCalled : Bool
  rl : RLState

/-- The `_nkw`/`category_id` validation
(`!searchParams._nkw && !searchParams.category_id`, with JS short-circuit:
`category_id` is only read when `_nkw` is falsy). -/
def missingRequired (body : JSVal) : Except JSErr Bool :=
  match jsMember body "_nkw" with
  | .error e => .error e
  | .ok nkw =>
    if jsTruthy nkw then .ok false
    else
      match jsMember body "category_id" with
      | .error e => .error e
      | .ok cid => .ok (!(jsTruthy cid))

/-- Variant C handler (api/ebay-search.js lines 4–108). -/
def handlerC (apiKey : Option String) (req : Req) (upstream : JSVal) : OutBC :=
  if req.method == "OPTIONS" then ⟨⟨200, .vundefined⟩, false⟩
  else if req.method != "POST" then ⟨⟨405, errObj ("Method not allowed")⟩, false⟩
  else
    match apiKey with
    | none => ⟨⟨500, errObj ("SERPAPI_KEY environment variable not set")⟩, false⟩
    | some key =>
      match missingRequired req.body with
      | .error e => ⟨catchBC e, false⟩
      | .ok missing =>
        if missing then
          ⟨⟨400, errObj ("Search query (_nkw) or category_id is required")⟩, false⟩
        else
          let _params := buildParamsVerbatim key (jsFieldsOf req.body)
          match afterFetch "SERPAPI Error: " false cleanProductC upstream with
          | .error e => ⟨catchBC e, true⟩
          | .ok r => ⟨r, true⟩

/-- Variant B handler (part_000 lines 278–376): identical control flow to
variant C with the comprehensive per-product cleaner. -/
def handlerB (apiKey : Option String) (req : Req) (upstream : JSVal) : OutBC :=
  if req.method == "OPTIONS" then ⟨⟨200, .vundefined⟩, false⟩
  else if req.method != "POST" then ⟨⟨405, errObj ("Method not allowed")⟩, false⟩
  else
    match apiKey with
    | none => ⟨⟨500, errObj ("SERPAPI_KEY environment variable not set")⟩, false⟩
    | some key =>
      match missingRequired req.body with
      | .error e => ⟨catchBC e, false⟩
      | .ok missing =>
        if missing then
          ⟨⟨400, errObj ("Search query (_nkw) or category_id is required")⟩, false⟩
        else
          let _params := buildParamsVerbatim key (jsFieldsOf req.body)
          match afterFetch "SERPAPI Error: " false cleanProductB upstream with
          | .error e => ⟨catchBC e, true⟩
          | .ok r => ⟨r, true⟩

/-- Variant A handler (part_000 lines 107–239): CORS gate, method gate, rate
limiter, API-key check, body-type check, `_nkw`/`category_id` check, then the
sanitizing forward with the simplified cleaner and the abort-aware catch. -/
def handlerA (now : Nat) (rl : RLState) (apiKey : Option String) (req : ReqA)
    (upstream : JSVal) : OutA :=
  if req.method == "OPTIONS" then ⟨⟨200, .vundefined⟩, false, rl⟩
  else if req.method != "POST" then ⟨⟨405, errObj ("Method not allowed")⟩, false, rl⟩
  else
    let c := checkRateLimit now req.clientIP rl
    if !c.1 then
      ⟨⟨429, .vobj [("error",
          .vstr ("Rate limit exceeded. Please wait before making more requests.")),
        ("retryAfter", .vnum 60)]⟩, false, c.2⟩
    else
      match apiKey with
      | none => ⟨⟨500, errObj ("SERPAPI_KEY environment variable not set")⟩, false, c.2⟩
      | some key =>
        if !(jsTruthy req.body) || jsTypeof req.body != "object" then
          ⟨⟨400, errObj ("Invalid request body")⟩, false, c.2⟩
        else
          match missingRequired req.body with
          | .error e => ⟨catchA e, false, c.2⟩
          | .ok missing =>
            if missing then
              ⟨⟨400, errObj ("Search query (_nkw) or category_id is required")⟩,
                false, c.2⟩
            else
              let _params := buildParamsSanitizing key (jsFieldsOf req.body)
              match afterFetch "Search failed: " true cleanProductA upstream with
              | .error e => ⟨catchA e, true, c.2⟩
              | .ok r => ⟨r, true, c.2⟩

/-! ## Helper lemmas: object field-list operations -/

theorem jsLookup_jsSet_self (l : List (String × JSVal)) (k : String) (v : JSVal) :
    jsLookup (jsSet l k v) k = some v := by
  induction l with
  | nil => simp [jsSet, jsLookup]
  | cons p rest ih =>
    cases p with
    | mk kk w =>
      by_cases hp : kk = k
      · simp [jsSet, jsLookup, hp]
      · simp [jsSet, jsLookup, hp, ih]

theorem jsLookup_jsSet_ne (l : List (String × JSVal)) (k k2 : String) (v : JSVal)
    (h : k2 ≠ k) : jsLookup (jsSet l k v) k2 = jsLookup l k2 := by
  induction l with
  | nil => simp [jsSet, jsLookup, Ne.symm h]
  | cons p rest ih =>
    cases p with
    | mk kk w =>
      by_cases hp : kk = k
      · subst hp
        simp [jsSet, jsLookup, Ne.symm h]
      · simp [jsSet, jsLookup, hp, ih]

theorem jsLookup_jsDelete_self (l : List (String × JSVal)) (k : String) :
    jsLookup (jsDelete l k) k = none := by
  induction l with
  | nil => simp [jsDelete, jsLookup]
  | cons p rest ih =>
    cases p with
    | mk kk w =>
      by_cases hp : kk = k
      · simp [jsDelete, hp, ih]
      · simp [jsDelete, jsLookup, hp, ih]

theorem jsLookup_jsDelete_ne (l : List (String × JSVal)) (k k2 : String)
    (h : k2 ≠ k) : jsLookup (jsDelete l k) k2 = jsLookup l k2 := by
  induction l with
  | nil => simp [jsDelete, jsLookup]
  | cons p rest ih =>
    cases p with
    | mk kk w =>
      by_cases hp : kk = k
      · subst hp
        simp [jsDelete, jsLookup, Ne.symm h, ih]
      · simp [jsDelete, jsLookup, hp, ih]

theorem jsSet_jsSet (l : List (String × JSVal)) (k : String) (v : JSVal) :
    jsSet (jsSet l k v) k v = jsSet l k v := by
  induction l with
  | nil => simp [jsSet]
  | cons p rest ih =>
    cases p with
    | mk kk w =>
      by_cases hp : kk = k
      · simp [jsSet, hp]
      · simp [jsSet, hp, ih]

theorem jsDelete_jsDelete (l : List (String × JSVal)) (k : String) :
    jsDelete (jsDelete l k) k = jsDelete l k := by
  induction l with
  | nil => simp [jsDelete]
  | cons p rest ih =>
    cases p with
    | mk kk w =>
      by_cases hp : kk = k
      · simp [jsDelete, hp, ih]
      · simp [jsDelete, hp, ih]

theorem cleanPriceFieldComprehensive_string (s : String) :
    cleanPriceFieldComprehensive (.vstr s) = .ok s := rfl

theorem cleanPriceFieldSimple_total (v : JSVal) :
    ∃ s, cleanPriceFieldSimple v = .ok s := by
  cases v with
  | vundefined => exact ⟨"Price not available", rfl⟩
  | vnull => exact ⟨"Price not available", rfl⟩
  | vbool b => cases b <;> exact ⟨"Price not available", rfl⟩
  | vnum q =>
    exact ⟨"Price not available", by
      simp [cleanPriceFieldSimple, restSimple, jsTypeof]⟩
  | vstr s =>
    by_cases hs : jsTrim s = ""
    · exact ⟨"Price not available", by
        simp [cleanPriceFieldSimple, restSimple, jsTypeof, jsTrimCall, hs]⟩
    · exact ⟨jsTrim s, by
        simp [cleanPriceFieldSimple, jsTypeof, jsTrimCall, hs]⟩
  | varr xs => exact ⟨"Price not available", rfl⟩
  | vobj fs =>
    have hobj : cleanPriceFieldSimple (.vobj fs) = objBranchSimple (.vobj fs) := by
      simp [cleanPriceFieldSimple, restSimple, jsTypeof, jsTruthy]
    rw [hobj]
    unfold objBranchSimple
    cases hraw : jsLookupD fs "raw" with
    | vstr rs =>
      by_cases hrs : rs = ""
      · cases hev : jsLookupD fs "extracted_value" <;>
          simp [jsMember, jsTruthy, jsTypeof, jsToFixed2V, hraw, hev, hrs]
      · exact ⟨rs, by simp [jsMember, jsTruthy, jsTypeof, jsAsString, hraw, hrs]⟩
    | vnum q =>
      cases hev : jsLookupD fs "extracted_value" <;>
        simp [jsMember, jsTruthy, jsTypeof, jsToFixed2V, hraw, hev]
    | vbool b =>
      cases b <;> cases hev : jsLookupD fs "extracted_value" <;>
        simp [jsMember, jsTruthy, jsTypeof, jsToFixed2V, hraw, hev]
    | vundefined =>
      cases hev : jsLookupD fs "extracted_value" <;>
        simp [jsMember, jsTruthy, jsTypeof, jsToFixed2V, hraw, hev]
    | vnull =>
      cases hev : jsLookupD fs "extracted_value" <;>
        simp [jsMember, jsTruthy, jsTypeof, jsToFixed2V, hraw, hev]
    | vobj gs =>
      cases hev : jsLookupD fs "extracted_value" <;>
        simp [jsMember, jsTruthy, jsTypeof, jsToFixed2V, hraw, hev]
    | varr ys =>
      cases hev : jsLookupD fs "extracted_value" <;>
        simp [jsMember, jsTruthy, jsTypeof, jsToFixed2V, hraw, hev]

/-- C1 fails on the comprehensive variant: at the object
`\x7bextracted_value: "x"\x7d` the function throws a TypeError (while
building the `attempts` array it calls `.toFixed(2)` on a truthy
non-number), so an input causes an exception, contrary to the claim that no
input of any type does. -/
theorem claim_C1_counterexample :
    cleanPriceFieldComprehensive (.vobj [("extracted_value", .vstr ("x"))]) =
      .error ⟨"TypeError", "toFixed is not a function"⟩ := rfl

/-- C1 (amended): the simplified `cleanPriceField` is total — it returns a
string for every input and never throws — and both variants return the
fallback string for `\x7b\x7d`, `null` and `42`; the comprehensive variant,
however, throws a TypeError whenever a truthy non-number occupies a numeric
candidate field such as `extracted_value`. -/
theorem claim_C1 :
    (∀ v, jsTruthy v = true → jsIsNum v = false →
      cleanPriceFieldComprehensive (.vobj [("extracted_value", v)]) =
        .error ⟨"TypeError", "toFixed is not a function"⟩)
    ∧ (∀ v, ∃ s, cleanPriceFieldSimple v = .ok s)
    ∧ cleanPriceFieldSimple (.vobj []) = .ok ("Price not available")
    ∧ cleanPriceFieldSimple .vnull = .ok ("Price not available")
    ∧ cleanPriceFieldSimple (.vnum 42) = .ok ("Price not available")
    ∧ cleanPriceFieldComprehensive (.vobj []) = .ok ("Price not available")
    ∧ cleanPriceFieldComprehensive .vnull = .ok ("Price not available")
    ∧ cleanPriceFieldComprehensive (.vnum 42) = .ok ("Price not available") := by
  refine ⟨?_, cleanPriceFieldSimple_total, rfl, rfl, ?_, rfl, rfl, ?_⟩
  · intro v hv hn
    cases v <;>
      simp_all [cleanPriceFieldComprehensive, condDollar, jsMember, jsLookupD,
        jsLookup, jsTruthy, jsTypeof, jsIsNum, jsToFixed2V]
  · simp [cleanPriceFieldSimple, restSimple, jsTypeof]
  · simp [cleanPriceFieldComprehensive, jsTypeof, jsTruthy]

/-- Witness for the amended C1 at `extracted_value = "x"`. -/
theorem claim_C1_witness :
    jsTruthy (.vstr ("x")) = true ∧ jsIsNum (.vstr ("x")) = false ∧
    cleanPriceFieldComprehensive (.vobj [("extracted_value", .vstr ("x"))]) =
      .error ⟨"TypeError", "toFixed is not a function"⟩ :=
  ⟨rfl, rfl, claim_C1.1 (.vstr ("x")) rfl rfl⟩

/-- C2 fails on the simplified (trimmed) variant: for the whitespace-only
string input `""` it returns the fallback `"Price not available"`, not the
trimmed input `""`. -/
theorem claim_C2_counterexample :
    cleanPriceFieldSimple (.vstr ("")) = .ok ("Price not available")
    ∧ jsTrim ("") = ("")
    ∧ ("Price not available" : String) ≠ ("") := by
  refine ⟨rfl, rfl, by decide⟩

/-- C2 (amended): the trimmed variant returns every string whose trim is
non-empty trimmed (whitespace-only strings give the fallback instead); the
comprehensive variant returns every string unchanged; both return `"$9.99"`
for `\x7braw: "$9.99"\x7d` and `"$12.50"` for
`\x7bextracted_value: 12.5\x7d`. -/
theorem claim_C2 :
    (∀ s : String, jsTrim s ≠ "" → cleanPriceFieldSimple (.vstr s) = .ok (jsTrim s))
    ∧ (∀ s : String, cleanPriceFieldComprehensive (.vstr s) = .ok s)
    ∧ cleanPriceFieldSimple (.vobj [("raw", .vstr ("$9.99"))]) = .ok ("$9.99")
    ∧ cleanPriceFieldComprehensive (.vobj [("raw", .vstr ("$9.99"))]) = .ok ("$9.99")
    ∧ (mkRat 25 2 : ℚ) = 12.5
    ∧ cleanPriceFieldSimple (.vobj [("extracted_value", .vnum (mkRat 25 2))]) =
        .ok ("$12.50")
    ∧ cleanPriceFieldComprehensive (.vobj [("extracted_value", .vnum (mkRat 25 2))]) =
        .ok ("$12.50") := by
  refine ⟨?_, cleanPriceFieldComprehensive_string, rfl, rfl, ?_, rfl, rfl⟩
  · intro s hs
    simp [cleanPriceFieldSimple, jsTypeof, jsTrimCall, hs]
  · norm_num [mkRat, Rat.normalize]

/-- Witness for the amended C2 at the string `"  $5 "`. -/
theorem claim_C2_witness :
    jsTrim ("  $5 ") ≠ "" ∧
    cleanPriceFieldSimple (.vstr ("  $5 ")) = .ok (jsTrim ("  $5 ")) :=
  ⟨by decide, claim_C2.1 ("  $5 ") (by decide)⟩

theorem jsDelete_jsSet_ne (l : List (String × JSVal)) (k k2 : String) (v : JSVal)
    (h : k ≠ k2) : jsDelete (jsSet l k v) k2 = jsSet (jsDelete l k2) k v := by
  induction l with
  | nil => simp [jsSet, jsDelete, h]
  | cons p rest ih =>
    cases p with
    | mk kk w =>
      by_cases hp : kk = k
      · subst hp
        simp [jsSet, jsDelete, h]
      · by_cases hk2 : kk = k2
        · simp [jsSet, jsDelete, hp, hk2, Ne.symm h, ih]
        · simp [jsSet, jsDelete, hp, hk2, ih]

/-- Frame of the shared sanitizer shape `jsSet (jsDelete fs "shipping")
"price" v`: `shipping` is gone, `price` holds `v`, everything else is
untouched. -/
theorem sanitized_fields (fs : List (String × JSVal)) (v : JSVal) :
    jsLookup (jsSet (jsDelete fs "shipping") "price" v) "shipping" = none
    ∧ (∀ k, k ≠ "shipping" → k ≠ "price" →
        jsLookup (jsSet (jsDelete fs "shipping") "price" v) k = jsLookup fs k)
    ∧ jsLookup (jsSet (jsDelete fs "shipping") "price" v) "price" = some v := by
  refine ⟨?_, ?_, jsLookup_jsSet_self _ _ _⟩
  · rw [jsLookup_jsSet_ne _ _ _ _ (by decide), jsLookup_jsDelete_self]
  · intro k hks hkp
    rw [jsLookup_jsSet_ne _ _ _ _ hkp, jsLookup_jsDelete_ne _ _ _ hks]

/-- C5 fails: the sanitizer does not leave every non-`shipping` field
unchanged — it rewrites `price`.  At a product whose `price` is the object
`\x7braw: "$9.99"\x7d`, the output `price` is the string `"$9.99"`:
`typeof` changes from `"object"` to `"string"`. -/
theorem claim_C5_counterexample :
    cleanProductA (.vobj [("title", .vstr ("A")),
        ("price", .vobj [("raw", .vstr ("$9.99"))]),
        ("shipping", .vobj [("cost", .vnum 5)])]) =
      .ok (.vobj [("title", .vstr ("A")), ("price", .vstr ("$9.99"))])
    ∧ jsTypeof (jsLookupD [("title", .vstr ("A")),
        ("price", .vobj [("raw", .vstr ("$9.99"))]),
        ("shipping", .vobj [("cost", .vnum 5)])] "price") = "object"
    ∧ jsTypeof (jsLookupD [("title", .vstr ("A")), ("price", .vstr ("$9.99"))] "price")
        = "string"
    ∧ ("object" : String) ≠ "string" :=
  ⟨rfl, rfl, rfl, by decide⟩

/-- C5 (amended): for every object product record on which the per-product
cleaning succeeds, the output has no `shipping` field, every field other
than `shipping` and `price` is preserved unchanged, and `price` holds the
display string produced by the price-cleaning function (in variants A
and B). -/
theorem claim_C5 :
    (∀ fs out, cleanProductA (.vobj fs) = .ok (.vobj out) →
      jsLookup out "shipping" = none
      ∧ (∀ k, k ≠ "shipping" → k ≠ "price" → jsLookup out k = jsLookup fs k)
      ∧ (∃ s, jsLookup out "price" = some (.vstr s)
          ∧ cleanPriceFieldSimple (jsLookupD (jsDelete fs "shipping") "price") = .ok s))
    ∧ (∀ fs out, cleanProductB (.vobj fs) = .ok (.vobj out) →
      jsLookup out "shipping" = none
      ∧ (∀ k, k ≠ "shipping" → k ≠ "price" → jsLookup out k = jsLookup fs k)
      ∧ (∃ s, jsLookup out "price" = some (.vstr s)
          ∧ cleanPriceFieldComprehensive (jsLookupD (jsDelete fs "shipping") "price")
            = .ok s)) := by
  constructor
  · intro fs out h
    unfold cleanProductA at h
    simp only [jsFieldsOf] at h
    cases hc : cleanPriceFieldSimple (jsLookupD (jsDelete fs "shipping") "price") with
    | error e => rw [hc] at h; exact absurd h (by simp)
    | ok s =>
      rw [hc] at h
      simp only [Except.ok.injEq, JSVal.vobj.injEq] at h
      subst h
      exact ⟨(sanitized_fields fs (.vstr s)).1, (sanitized_fields fs (.vstr s)).2.1,
        s, (sanitized_fields fs (.vstr s)).2.2, rfl⟩
  · intro fs out h
    unfold cleanProductB at h
    simp only [jsFieldsOf] at h
    cases hc : cleanPriceFieldComprehensive (jsLookupD (jsDelete fs "shipping") "price") with
    | error e => rw [hc] at h; exact absurd h (by simp)
    | ok s =>
      rw [hc] at h
      simp only [Except.ok.injEq, JSVal.vobj.injEq] at h
      subst h
      exact ⟨(sanitized_fields fs (.vstr s)).1, (sanitized_fields fs (.vstr s)).2.1,
        s, (sanitized_fields fs (.vstr s)).2.2, rfl⟩

/-- Witness for the amended C5 at the end-to-end example product. -/
theorem claim_C5_witness :
    jsLookup [("title", .vstr ("A")), ("price", .vstr ("$9.99"))] "shipping" = none
    ∧ jsLookup [("title", .vstr ("A")), ("price", .vstr ("$9.99"))] "title" =
        jsLookup [("title", .vstr ("A")),
          ("price", .vobj [("raw", .vstr ("$9.99"))]),
          ("shipping", .vobj [("cost", .vnum 5)])] "title" :=
  ⟨(claim_C5.1 [("title", .vstr ("A")),
      ("price", .vobj [("raw", .vstr ("$9.99"))]),
      ("shipping", .vobj [("cost", .vnum 5)])]
      [("title", .vstr ("A")), ("price", .vstr ("$9.99"))] rfl).1,
   (claim_C5.1 [("title", .vstr ("A")),
      ("price", .vobj [("raw", .vstr ("$9.99"))]),
      ("shipping", .vobj [("cost", .vnum 5)])]
      [("title", .vstr ("A")), ("price", .vstr ("$9.99"))] rfl).2.1
      "title" (by decide) (by decide)⟩

theorem appendVerbatim_eq (fs : List (String × JSVal)) :
    appendVerbatim fs = fs.filterMap (fun kv =>
      if forwardedVal kv.2 then some (kv.1, jsToString kv.2) else none) := by
  induction fs with
  | nil => rfl
  | cons p rest ih =>
    cases p with
    | mk k v =>
      by_cases hv : forwardedVal v = true
      · simp [appendVerbatim, List.filterMap_cons, hv, ih]
      · simp only [Bool.not_eq_true] at hv
        simp [appendVerbatim, List.filterMap_cons, hv, ih]

theorem appendSanitized_eq (fs : List (String × JSVal)) :
    appendSanitized fs = fs.filterMap (fun kv =>
      if forwardedVal kv.2 && sanitizeValue (jsToString kv.2) != "" then
        some (kv.1, sanitizeValue (jsToString kv.2)) else none) := by
  induction fs with
  | nil => rfl
  | cons p rest ih =>
    cases p with
    | mk k v =>
      by_cases hv : forwardedVal v = true
      · by_cases hs : sanitizeValue (jsToString v) = ""
        · simp [appendSanitized, List.filterMap_cons, hv, hs, ih]
        · simp [appendSanitized, List.filterMap_cons, hv, hs, ih]
      · simp only [Bool.not_eq_true] at hv
        simp [appendSanitized, List.filterMap_cons, hv, ih]

/-- C7 fails for the sanitizing variant: a pair whose value is neither null
nor undefined nor the empty string is nevertheless dropped when
sanitization strips it to the empty string (here the value `"!!!"`). -/
theorem claim_C7_counterexample :
    buildParamsSanitizing ("k") [("_nkw", .vstr ("a")), ("x", .vstr ("!!!"))] =
      [("engine", "ebay"), ("api_key", "k"), ("ebay_domain", "ebay.com"), ("_nkw", "a")]
    ∧ forwardedVal (.vstr ("!!!")) = true
    ∧ ("x" ∉ (buildParamsSanitizing ("k")
        [("_nkw", .vstr ("a")), ("x", .vstr ("!!!"))]).map Prod.fst) :=
  ⟨rfl, rfl, by decide⟩

/-- C7 (amended): both builders append `engine=ebay`, `api_key=<secret>`,
`ebay_domain=ebay.com` first and then, in body order, every key/value pair
whose value is not null, not undefined and not the empty string; the
verbatim variants forward the coerced value unchanged, while the sanitizing
variant strips every character outside `[A-Za-z0-9_\s.,()-]` from the
coerced value and appends the pair only when the stripped value is
non-empty. -/
theorem claim_C7 (apiKey : String) (fs : List (String × JSVal)) :
    buildParamsVerbatim apiKey fs =
      [("engine", "ebay"), ("api_key", apiKey), ("ebay_domain", "ebay.com")] ++
        fs.filterMap (fun kv =>
          if forwardedVal kv.2 then some (kv.1, jsToString kv.2) else none)
    ∧ buildParamsSanitizing apiKey fs =
      [("engine", "ebay"), ("api_key", apiKey), ("ebay_domain", "ebay.com")] ++
        fs.filterMap (fun kv =>
          if forwardedVal kv.2 && sanitizeValue (jsToString kv.2) != "" then
            some (kv.1, sanitizeValue (jsToString kv.2)) else none) := by
  constructor
  · rw [buildParamsVerbatim, appendVerbatim_eq]; rfl
  · rw [buildParamsSanitizing, appendSanitized_eq]; rfl

/-! ## Handler claims -/

/-- C8: every request whose method is neither POST nor OPTIONS is answered
405 with body `\x7berror: "Method not allowed"\x7d` in all three variants,
before validation, rate limiting (the limiter map is returned unchanged) or
any upstream call. -/
theorem claim_C8 (method ip : String) (body upstream : JSVal)
    (apiKey : Option String) (now : Nat) (rl : RLState)
    (hp : method ≠ "POST") (ho : method ≠ "OPTIONS") :
    handlerC apiKey ⟨method, body⟩ upstream =
      ⟨⟨405, errObj ("Method not allowed")⟩, false⟩
    ∧ handlerB apiKey ⟨method, body⟩ upstream =
      ⟨⟨405, errObj ("Method not allowed")⟩, false⟩
    ∧ handlerA now rl apiKey ⟨method, ip, body⟩ upstream =
      ⟨⟨405, errObj ("Method not allowed")⟩, false, rl⟩ := by
  refine ⟨?_, ?_, ?_⟩ <;> simp [handlerC, handlerB, handlerA, ho, hp]

/-- Witness for C8 with the method GET. -/
theorem claim_C8_witness :
    (("GET" : String) ≠ "POST") ∧ (("GET" : String) ≠ "OPTIONS")
    ∧ handlerC none ⟨"GET", .vnull⟩ .vnull =
        ⟨⟨405, errObj ("Method not allowed")⟩, false⟩
    ∧ handlerA 7 [] none ⟨"GET", "1.2.3.4", .vnull⟩ .vnull =
        ⟨⟨405, errObj ("Method not allowed")⟩, false, []⟩ :=
  ⟨by decide, by decide,
   (claim_C8 "GET" "1.2.3.4" .vnull .vnull none 7 [] (by decide) (by decide)).1,
   (claim_C8 "GET" "1.2.3.4" .vnull .vnull none 7 [] (by decide) (by decide)).2.2⟩

theorem missingRequired_of_falsy (fs : List (String × JSVal))
    (h1 : jsLookup fs "_nkw" = none ∨ jsLookup fs "_nkw" = some (.vstr ("")))
    (h2 : jsLookup fs "category_id" = none
      ∨ jsLookup fs "category_id" = some (.vstr (""))) :
    missingRequired (.vobj fs) = .ok true := by
  unfold missingRequired
  have t1 : jsTruthy (jsLookupD fs "_nkw") = false := by
    rcases h1 with h | h <;> simp [jsLookupD, h, jsTruthy]
  have t2 : jsTruthy (jsLookupD fs "category_id") = false := by
    rcases h2 with h | h <;> simp [jsLookupD, h, jsTruthy]
  simp [jsMember, t1, t2]

/-- C3: for every object request body in which `_nkw` and `category_id` are
both missing or the empty string, no variant performs the upstream call
(whatever the method, key and limiter state), and a POST that passes the
rate limiter with an API key configured is answered 400. -/
theorem claim_C3 (fs : List (String × JSVal))
    (h1 : jsLookup fs "_nkw" = none ∨ jsLookup fs "_nkw" = some (.vstr ("")))
    (h2 : jsLookup fs "category_id" = none
      ∨ jsLookup fs "category_id" = some (.vstr (""))) :
    (∀ method apiKey upstream,
      (handlerC apiKey ⟨method, .vobj fs⟩ upstream).upstreamCalled = false)
    ∧ (∀ key upstream, (handlerC (some key) ⟨"POST", .vobj fs⟩ upstream).resp =
        ⟨400, errObj ("Search query (_nkw) or category_id is required")⟩)
    ∧ (∀ method apiKey upstream,
      (handlerB apiKey ⟨method, .vobj fs⟩ upstream).upstreamCalled = false)
    ∧ (∀ key upstream, (handlerB (some key) ⟨"POST", .vobj fs⟩ upstream).resp =
        ⟨400, errObj ("Search query (_nkw) or category_id is required")⟩)
    ∧ (∀ method ip now rl apiKey upstream,
      (handlerA now rl apiKey ⟨method, ip, .vobj fs⟩ upstream).upstreamCalled = false)
    ∧ (∀ ip now rl key upstream, (checkRateLimit now ip rl).1 = true →
        (handlerA now rl (some key) ⟨"POST", ip, .vobj fs⟩ upstream).resp =
          ⟨400, errObj ("Search query (_nkw) or category_id is required")⟩) := by
  have hm := missingRequired_of_falsy fs h1 h2
  refine ⟨?_, ?_, ?_, ?_, ?_, ?_⟩
  · intro method apiKey upstream
    unfold handlerC
    split
    · rfl
    · split
      · rfl
      · cases apiKey with
        | none => rfl
        | some key => simp [hm]
  · intro key upstream
    simp [handlerC, hm]
  · intro method apiKey upstream
    unfold handlerB
    split
    · rfl
    · split
      · rfl
      · cases apiKey with
        | none => rfl
        | some key => simp [hm]
  · intro key upstream
    simp [handlerB, hm]
  · intro method ip now rl apiKey upstream
    unfold handlerA
    split
    · rfl
    · split
      · rfl
      · cases hrl : (checkRateLimit now ip rl).1 with
        | false => simp [hrl]
        | true =>
          cases apiKey with
          | none => simp [hrl]
          | some key => simp [hrl, hm, jsTruthy, jsTypeof]
  · intro ip now rl key upstream hrl
    simp [handlerA, hrl, hm, jsTruthy, jsTypeof]

/-- Witness for C3 at the body `\x7bq: "x"\x7d`. -/
theorem claim_C3_witness :
    (handlerC (some ("k")) ⟨"POST", .vobj [("q", .vstr ("x"))]⟩ .vnull).resp =
      ⟨400, errObj ("Search query (_nkw) or category_id is required")⟩
    ∧ (handlerA 0 [] (some ("k"))
        ⟨"POST", "1.2.3.4", .vobj [("q", .vstr ("x"))]⟩ .vnull).resp =
      ⟨400, errObj ("Search query (_nkw) or category_id is required")⟩ :=
  ⟨(claim_C3 [("q", .vstr ("x"))] (Or.inl rfl) (Or.inl rfl)).2.1 "k" .vnull,
   (claim_C3 [("q", .vstr ("x"))] (Or.inl rfl) (Or.inl rfl)).2.2.2.2.2
     "1.2.3.4" 0 [] "k" .vnull rfl⟩

/-- C4 fails in the two variants without the body-type check: a POST with a
`null` body makes `searchParams._nkw` throw inside the `try`, which the
top-level catch maps to 500, not 400. -/
theorem claim_C4_counterexample :
    (handlerC (some ("k")) ⟨"POST", .vnull⟩ (.vobj [])).resp.status = 500
    ∧ (handlerB (some ("k")) ⟨"POST", .vnull⟩ (.vobj [])).resp.status = 500
    ∧ (500 : Nat) ≠ 400 :=
  ⟨rfl, rfl, by decide⟩

/-- C4 (amended): only the hardened variant checks the body type: there a
POST whose body is null or not an object (given an API key and a pass from
the rate limiter) is answered 400 with no upstream call; in the other two
variants a null or undefined body throws on the `_nkw` read and the catch
answers 500. -/
theorem claim_C4 :
    (∀ now rl ip key upstream body, (checkRateLimit now ip rl).1 = true →
      (body = .vnull ∨ jsTypeof body ≠ "object") →
      (handlerA now rl (some key) ⟨"POST", ip, body⟩ upstream).resp =
        ⟨400, errObj ("Invalid request body")⟩
      ∧ (handlerA now rl (some key) ⟨"POST", ip, body⟩ upstream).upstreamCalled
          = false)
    ∧ (∀ key upstream, (handlerC (some key) ⟨"POST", .vnull⟩ upstream).resp.status = 500)
    ∧ (∀ key upstream, (handlerB (some key) ⟨"POST", .vnull⟩ upstream).resp.status = 500)
    ∧ (∀ key upstream, (handlerC (some key) ⟨"POST", .vundefined⟩ upstream).resp.status = 500)
    ∧ (∀ key upstream, (handlerB (some key) ⟨"POST", .vundefined⟩ upstream).resp.status
        = 500) := by
  refine ⟨?_, fun key upstream => rfl, fun key upstream => rfl,
    fun key upstream => rfl, fun key upstream => rfl⟩
  intro now rl ip key upstream body hrl hbody
  have hcond : (!(jsTruthy body) || jsTypeof body != "object") = true := by
    rcases hbody with h | h
    · subst h; rfl
    · simp [h]
  constructor <;> simp [handlerA, hrl, hcond]

/-- Witness for the amended C4 at the numeric body `42`. -/
theorem claim_C4_witness :
    (checkRateLimit 0 ("1.2.3.4") []).1 = true
    ∧ ((.vnum 42 : JSVal) = .vnull ∨ jsTypeof (.vnum 42) ≠ "object")
    ∧ (handlerA 0 [] (some ("k")) ⟨"POST", "1.2.3.4", .vnum 42⟩ .vnull).resp =
        ⟨400, errObj ("Invalid request body")⟩ :=
  ⟨rfl, Or.inr (by decide),
   (claim_C4.1 0 [] "1.2.3.4" "k" .vnull (.vnum 42) rfl (Or.inr (by decide))).1⟩

/-! ## Rate limiter claims -/

theorem checkRateLimit_empty (now : Nat) (ip : String) :
    checkRateLimit now ip [] = (true, [(ip, ⟨1, now + RATE_LIMIT_WINDOW_MS⟩)]) := by
  unfold checkRateLimit
  simp [rlGet, rlSet, Nat.not_lt.mpr (Nat.le_add_right now RATE_LIMIT_WINDOW_MS),
    RATE_LIMIT_MAX_REQUESTS]

theorem checkRateLimit_single (now : Nat) (ip : String) (k rt : Nat)
    (hreset : ¬ rt < now) (hk : k < RATE_LIMIT_MAX_REQUESTS) :
    checkRateLimit now ip [(ip, ⟨k, rt⟩)] = (true, [(ip, ⟨k + 1, rt⟩)]) := by
  unfold checkRateLimit
  simp [rlGet, rlSet, hreset, Nat.not_le.mpr hk]

theorem checkRateLimit_full (now : Nat) (ip : String) (rt : Nat) (m : RLState)
    (hget : rlGet m ip = some ⟨RATE_LIMIT_MAX_REQUESTS, rt⟩) (hreset : ¬ rt < now) :
    checkRateLimit now ip m = (false, m) := by
  unfold checkRateLimit
  simp [hget, hreset]

theorem checkRateLimit_reset (now : Nat) (ip : String) (e : RLEntry) (m : RLState)
    (hget : rlGet m ip = some e) (hreset : e.resetTime < now) :
    (checkRateLimit now ip m).1 = true := by
  unfold checkRateLimit
  simp [hget, hreset, RATE_LIMIT_MAX_REQUESTS]

theorem runCalls_window (ip : String) (t : Nat → Nat) (n : Nat) (hn : n ≤ 30)
    (h : ∀ i, i < n → t i ≤ t 0 + RATE_LIMIT_WINDOW_MS) :
    runCalls ip t n =
      (List.replicate n true,
        if n = 0 then [] else [(ip, ⟨n, t 0 + RATE_LIMIT_WINDOW_MS⟩)]) := by
  induction n with
  | zero => rfl
  | succ n ih =>
    have hn2 : n ≤ 30 := Nat.le_of_succ_le hn
    have h2 : ∀ i, i < n → t i ≤ t 0 + RATE_LIMIT_WINDOW_MS :=
      fun i hi => h i (Nat.lt_succ_of_lt hi)
    have htn : t n ≤ t 0 + RATE_LIMIT_WINDOW_MS := h n (Nat.lt_succ_self n)
    simp only [runCalls]
    rw [ih hn2 h2]
    cases n with
    | zero =>
      rw [if_pos rfl, checkRateLimit_empty]
      simp
    | succ m =>
      rw [if_neg (Nat.succ_ne_zero m),
        checkRateLimit_single (t (m + 1)) ip (m + 1) (t 0 + RATE_LIMIT_WINDOW_MS)
          (Nat.not_lt.mpr htn) (Nat.lt_of_succ_le hn)]
      simp [List.replicate_succ']

/-- C6: the limiter is a fixed window of 60000 ms and 30 requests per IP:
for one IP, 31 calls all within the window of the first call yield 30
allowed results then one not-allowed, the 31st call does not increment the
stored counter (it stays 30), and any later call strictly after the window
end is allowed again. -/
theorem claim_C6 (ip : String) (t : Nat → Nat)
    (h : ∀ i, i < 31 → t i ≤ t 0 + RATE_LIMIT_WINDOW_MS) :
    RATE_LIMIT_WINDOW_MS = 60000
    ∧ RATE_LIMIT_MAX_REQUESTS = 30
    ∧ (runCalls ip t 31).1 = List.replicate 30 true ++ [false]
    ∧ (runCalls ip t 31).2 = [(ip, ⟨30, t 0 + RATE_LIMIT_WINDOW_MS⟩)]
    ∧ (∀ u, t 0 + RATE_LIMIT_WINDOW_MS < u →
        (checkRateLimit u ip (runCalls ip t 31).2).1 = true) := by
  have h30 := runCalls_window ip t 30 (by norm_num)
    (fun i hi => h i (Nat.lt_succ_of_lt hi))
  have e1 : runCalls ip t 31 =
      ((runCalls ip t 30).1 ++ [(checkRateLimit (t 30) ip (runCalls ip t 30).2).1],
        (checkRateLimit (t 30) ip (runCalls ip t 30).2).2) := rfl
  have hfull := checkRateLimit_full (t 30) ip (t 0 + RATE_LIMIT_WINDOW_MS)
    [(ip, ⟨30, t 0 + RATE_LIMIT_WINDOW_MS⟩)]
    (by simp [rlGet, RATE_LIMIT_MAX_REQUESTS])
    (Nat.not_lt.mpr (h 30 (by norm_num)))
  have hstep : runCalls ip t 31 =
      (List.replicate 30 true ++ [false], [(ip, ⟨30, t 0 + RATE_LIMIT_WINDOW_MS⟩)]) := by
    rw [e1, h30]
    simp [hfull]
  refine ⟨rfl, rfl, by rw [hstep], by rw [hstep], ?_⟩
  intro u hu
  rw [hstep]
  exact checkRateLimit_reset u ip ⟨30, t 0 + RATE_LIMIT_WINDOW_MS⟩ _
    (by simp [rlGet]) hu

/-- Witness for C6: all 31 calls at time 0. -/
theorem claim_C6_witness :
    (runCalls ("1.2.3.4") (fun _ => 0) 31).1 = List.replicate 30 true ++ [false]
    ∧ (runCalls ("1.2.3.4") (fun _ => 0) 31).2 = [(("1.2.3.4" : String), ⟨30, 60000⟩)]
    ∧ (checkRateLimit 60001 ("1.2.3.4") (runCalls ("1.2.3.4") (fun _ => 0) 31).2).1
      = true :=
  ⟨(claim_C6 "1.2.3.4" (fun _ => 0) (fun i _ => Nat.zero_le _)).2.2.1,
   (claim_C6 "1.2.3.4" (fun _ => 0) (fun i _ => Nat.zero_le _)).2.2.2.1,
   (claim_C6 "1.2.3.4" (fun _ => 0) (fun i _ => Nat.zero_le _)).2.2.2.2 60001
     (by decide)⟩

theorem mem_rlSet (m : RLState) (ip : String) (e : RLEntry) (pr : String × RLEntry)
    (hpr : pr ∈ rlSet m ip e) : pr.2 = e ∨ pr ∈ m := by
  induction m with
  | nil =>
    simp [rlSet] at hpr
    simp [hpr]
  | cons q rest ih =>
    cases q with
    | mk ip2 e2 =>
      by_cases hip : ip2 = ip
      · simp [rlSet, hip] at hpr
        rcases hpr with h | h
        · left; rw [h]
        · right; simp [h]
      · simp [rlSet, hip] at hpr
        rcases hpr with h | h
        · right; simp [h]
        · rcases ih h with h2 | h2
          · left; exact h2
          · right; simp [h2]

theorem checkRateLimit_bound (now : Nat) (ip : String) (m : RLState)
    (hm : ∀ pr ∈ m, pr.2.requests ≤ RATE_LIMIT_MAX_REQUESTS) :
    ∀ pr ∈ (checkRateLimit now ip m).2, pr.2.requests ≤ RATE_LIMIT_MAX_REQUESTS := by
  intro pr hpr
  simp only [checkRateLimit] at hpr
  split at hpr
  · split at hpr
    · exact hm pr hpr
    · split at hpr
      · have hpr2 := (List.mem_filter.mp hpr).1
        rcases mem_rlSet _ _ _ _ hpr2 with hh | hh
        · rw [hh]; simp [RATE_LIMIT_MAX_REQUESTS]
        · exact hm pr hh
      · rcases mem_rlSet _ _ _ _ hpr with hh | hh
        · rw [hh]; simp [RATE_LIMIT_MAX_REQUESTS]
        · exact hm pr hh
  · split at hpr
    · exact hm pr hpr
    · rename_i hneg
      split at hpr
      · have hpr2 := (List.mem_filter.mp hpr).1
        rcases mem_rlSet _ _ _ _ hpr2 with hh | hh
        · rw [hh]; exact Nat.succ_le_of_lt (Nat.lt_of_not_le hneg)
        · exact hm pr hh
      · rcases mem_rlSet _ _ _ _ hpr with hh | hh
        · rw [hh]; exact Nat.succ_le_of_lt (Nat.lt_of_not_le hneg)
        · exact hm pr hh

theorem runSeqFrom_bound (cs : List (Nat × String)) (m : RLState)
    (hm : ∀ pr ∈ m, pr.2.requests ≤ RATE_LIMIT_MAX_REQUESTS) :
    ∀ pr ∈ runSeqFrom m cs, pr.2.requests ≤ RATE_LIMIT_MAX_REQUESTS := by
  induction cs generalizing m with
  | nil => exact hm
  | cons c rest ih =>
    simp only [runSeqFrom]
    exact ih _ (checkRateLimit_bound c.1 c.2 m hm)

/-- C9: in every state of the rate-limiter map reachable from the empty map
by any sequence of `checkRateLimit` calls, every stored counter is at most
`RATE_LIMIT_MAX_REQUESTS` (30). -/
theorem claim_C9 (cs : List (Nat × String)) :
    ∀ pr ∈ runSeq cs, pr.2.requests ≤ RATE_LIMIT_MAX_REQUESTS :=
  runSeqFrom_bound cs [] (by simp)

/-- Witness for C9 after a single call. -/
theorem claim_C9_witness :
    (("1.2.3.4", (⟨1, 60000⟩ : RLEntry)) ∈ runSeq [(0, "1.2.3.4")])
    ∧ (⟨1, 60000⟩ : RLEntry).requests ≤ RATE_LIMIT_MAX_REQUESTS :=
  ⟨by decide, claim_C9 [(0, "1.2.3.4")] ("1.2.3.4", ⟨1, 60000⟩) (by decide)⟩

/-! ## Idempotence of the comprehensive sanitizer -/

theorem cleanProductB_idem (p q : JSVal) (h : cleanProductB p = .ok q) :
    cleanProductB q = .ok q := by
  simp only [cleanProductB] at h
  cases hc : cleanPriceFieldComprehensive
      (jsLookupD (jsDelete (jsFieldsOf p) "shipping") "price") with
  | error e => rw [hc] at h; cases h
  | ok s =>
    rw [hc] at h
    simp only [Except.ok.injEq] at h
    subst h
    have hdel := jsDelete_jsDelete (jsFieldsOf p) "shipping"
    generalize jsDelete (jsFieldsOf p) "shipping" = fs1 at hdel ⊢
    simp only [cleanProductB, jsFieldsOf]
    rw [jsDelete_jsSet_ne _ _ _ _ (by decide), hdel]
    have hlook : jsLookupD (jsSet fs1 "price" (.vstr s)) "price" = .vstr s := by
      simp [jsLookupD, jsLookup_jsSet_self]
    rw [hlook, cleanPriceFieldComprehensive_string]
    show Except.ok (JSVal.vobj (jsSet (jsSet fs1 "price" (.vstr s)) "price" (.vstr s)))
      = _
    rw [jsSet_jsSet]

theorem mapExceptList_idem (f : JSVal → Except JSErr JSVal)
    (hf : ∀ p q, f p = .ok q → f q = .ok q) :
    ∀ xs ys, mapExceptList f xs = .ok ys → mapExceptList f ys = .ok ys := by
  intro xs
  induction xs with
  | nil =>
    intro ys h
    simp only [mapExceptList, Except.ok.injEq] at h
    subst h
    rfl
  | cons x xs ih =>
    intro ys h
    simp only [mapExceptList] at h
    cases hx : f x with
    | error e => rw [hx] at h; cases h
    | ok y =>
      rw [hx] at h
      cases hxs : mapExceptList f xs with
      | error e => rw [hxs] at h; cases h
      | ok zs =>
        rw [hxs] at h
        simp only [Except.ok.injEq] at h
        subst h
        simp only [mapExceptList]
        rw [hf x y hx, ih zs hxs]

/-- C10: the per-product cleaning of the comprehensive variant is
idempotent: sequencing a second sanitization pass after the first yields
exactly the first pass's outcome (in particular, when the first pass
succeeds the second returns its input unchanged). -/
theorem claim_C10 (xs : List JSVal) :
    (mapExceptList cleanProductB xs).bind (mapExceptList cleanProductB) =
      mapExceptList cleanProductB xs := by
  cases h : mapExceptList cleanProductB xs with
  | error e => rfl
  | ok ys => exact mapExceptList_idem cleanProductB cleanProductB_idem xs ys h
